import Mathlib

/-!
Shallow embedding of `src/lib/src/invidious.rs` (termusic).

JSON values are modelled by the inductive `Value`, mirroring `serde_json::Value`;
numbers carry the serde distinction between unsigned integers (`as_u64` succeeds),
negative integers and floats (`as_u64` fails). External collaborators (the
yt-dlp subprocess, the HTTP client, `serde_json::from_str` applied to a whole
document) are passed in as function parameters, so every code path of the Rust
file is a total Lean function of its environment.
-/

set_option autoImplicit false

namespace Invidious

/-- A JSON number as stored by serde_json: an unsigned integer, a negative
integer, or a float. `as_u64` succeeds exactly on the `uint` form. -/
inductive JNum where
  | uint (n : Nat)
  | int (i : Int)
  | float (q : ℚ)

/-- Model of `serde_json::Value`. -/
inductive Value where
  | null
  | bool (b : Bool)
  | num (n : JNum)
  | str (s : String)
  | arr (elems : List Value)
  | obj (fields : List (String × Value))

/-- First-match association-list lookup, modelling `serde_json::Map::get`. -/
def lookupField : List (String × Value) → String → Option Value
  | [], _ => none
  | (k, v) :: rest, key => if k = key then some v else lookupField rest key

/-- `Value::get` with a string key: object member lookup, `None` on non-objects. -/
def Value.get : Value → String → Option Value
  | .obj fields, key => lookupField fields key
  | _, _ => none

/-- `Value::get` with an integer index: array indexing, `None` on non-arrays. -/
def Value.getIdx : Value → Nat → Option Value
  | .arr elems, i => elems[i]?
  | _, _ => none

/-- `Value::as_str`. -/
def Value.as_str : Value → Option String
  | .str s => some s
  | _ => none

/-- `Value::as_bool`. -/
def Value.as_bool : Value → Option Bool
  | .bool b => some b
  | _ => none

/-- `Value::as_u64`: succeeds only on numbers serde stores as `u64`. -/
def Value.as_u64 : Value → Option Nat
  | .num (.uint n) => some n
  | _ => none

/-- `Value::as_array`. -/
def Value.as_array : Value → Option (List Value)
  | .arr elems => some elems
  | _ => none

/-- `Value::as_object`, returning the field list of the map. -/
def Value.as_object : Value → Option (List (String × Value))
  | .obj fields => some fields
  | _ => none

/-- The `YoutubeVideo` record. `length_seconds : u64` is modelled as `Nat`. -/
structure YoutubeVideo where
  title : String
  length_seconds : Nat
  video_id : String
deriving DecidableEq, Repr

/-- The `Instance` session struct. The `reqwest::Client` handle is opaque and
carries no observable state, so it is omitted from the embedding. -/
structure Instance where
  domain : Option String
  query : Option String

/-- `Instance::default`: binds the empty string as both domain and query. -/
def Instance.default : Instance :=
  { domain := some "", query := some "" }

/-- `parse_ytdlp_item`: `title` and `id` must be strings, the `duration` key
must be present; a present `duration` that is not an unsigned integer yields
`unwrap_or(0)`. Each `match` on `none` models a `?` early return. -/
def parse_ytdlp_item (value : Value) : Option YoutubeVideo :=
  match (value.get "title").bind Value.as_str with
  | none => none
  | some title =>
    match (value.get "id").bind Value.as_str with
    | none => none
    | some video_id =>
      match value.get "duration" with
      | none => none
      | some d =>
        some { title := title, length_seconds := (d.as_u64).getD 0, video_id := video_id }

/-- `parse_youtube_item`: all three fields are mandatory and typed. -/
def parse_youtube_item (value : Value) : Option (String × String × Nat) :=
  match (value.get "title").bind Value.as_str with
  | none => none
  | some title =>
    match (value.get "videoId").bind Value.as_str with
    | none => none
    | some video_id =>
      match (value.get "lengthSeconds").bind Value.as_u64 with
      | none => none
      | some length_seconds => some (title, video_id, length_seconds)

/-- `parse_youtube_options` applied after `serde_json::from_str`: the argument
is the decoded document (`none` models a malformed string). A decoded
non-array, like a malformed string, yields `none`. -/
def parse_youtube_options (decoded : Option Value) : Option (List YoutubeVideo) :=
  match decoded with
  | none => none
  | some value =>
    match value.as_array with
    | none => none
    | some array =>
      some (array.filterMap fun v =>
        (parse_youtube_item v).map fun t =>
          { title := t.1, length_seconds := t.2.2, video_id := t.2.1 })

/-- Digit-list value, base 10. -/
def digitsVal (cs : List Char) : Nat :=
  cs.foldl (fun acc c => 10 * acc + (c.toNat - 48)) 0

/-- Model of Rust `str::parse::<f64>` restricted to plain decimal strings
(optional sign, digits, optional fractional part; exponent, `inf` and `NaN`
forms are omitted). Exact rational arithmetic stands in for `f64`; for ratio
strings such as "99.2" this matches the f64 comparison against 95.0. -/
def parseDecimal (s : String) : Option ℚ :=
  let withSign : ℚ × List Char :=
    match s.toList with
    | '-' :: rest => (-1, rest)
    | '+' :: rest => (1, rest)
    | cs => (1, cs)
  let sign := withSign.1
  let cs := withSign.2
  let intPart := cs.takeWhile Char.isDigit
  let rest := cs.dropWhile Char.isDigit
  match rest with
  | [] =>
    if intPart.isEmpty then none
    else some (sign * (digitsVal intPart : ℚ))
  | '.' :: fracPart =>
    if fracPart.all Char.isDigit ∧ ¬(intPart.isEmpty ∧ fracPart.isEmpty) then
      some (sign * ((digitsVal intPart : ℚ) +
        (digitsVal fracPart : ℚ) / ((10 : ℚ) ^ fracPart.length)))
    else none
  | _ => none

/-- `parse_instance`: entry shape `[name, details]`; requires `details.api`
to be boolean-true, a string `uri`, and `monitor["30dRatio"].ratio` to be a
string parsing as a float. -/
def parse_instance (value : Value) : Option (String × ℚ) :=
  match (value.getIdx 1).bind Value.as_object with
  | none => none
  | some obj =>
    match (lookupField obj "api").bind Value.as_bool with
    | none => none
    | some api =>
      if api then
        match (lookupField obj "uri").bind Value.as_str with
        | none => none
        | some uri =>
          match (lookupField obj "monitor").bind Value.as_object with
          | none => none
          | some monitor =>
            match lookupField monitor "30dRatio" with
            | none => none
            | some ratioEntry =>
              match (ratioEntry.get "ratio").bind Value.as_str with
              | none => none
              | some ratioStr =>
                (parseDecimal ratioStr).map fun health => (uri, health)
      else none

/-- The filter loop body of `parse_invidious_instance_list`: the `uri`s of the
array entries whose `parse_instance` succeeds with health above 95.0. -/
def filtered_instances (value : Value) : List String :=
  match value.as_array with
  | none => []
  | some array =>
    array.filterMap fun v =>
      match parse_instance v with
      | some (uri, health) => if 95 < health then some uri else none
      | none => none

/-- `parse_invidious_instance_list` applied after `serde_json::from_str`:
returns the filtered uri list when it is non-empty, `none` otherwise
(including malformed input and non-array documents). -/
def parse_invidious_instance_list (decoded : Option Value) : Option (List String) :=
  match decoded with
  | none => none
  | some value =>
    let vec := filtered_instances value
    if vec.isEmpty then none else some vec

/-- The errors `get_search_query`/`search_with_ytdlp` can raise: the explicit
`bail!("No query string found")` versus an error propagated from the yt-dlp
subprocess (spawn, download or join failure). -/
inductive SearchErr where
  | missingQuery
  | externalTool (msg : String)
deriving DecidableEq, Repr

/-- `RESULTS_PER_PAGE`. -/
def RESULTS_PER_PAGE : Nat := 20

/-- The `ytsearch{total_results}:{query}` pseudo-URL handed to yt-dlp. -/
def search_query_string (total_results : Nat) (query : String) : String :=
  "ytsearch" ++ toString total_results ++ ":" ++ query

/-- Rust `line.trim().is_empty()`: true iff every character of the line is
whitespace (trimming whitespace from both ends leaves the empty string). -/
def trimIsEmpty (line : String) : Bool :=
  line.toList.all Char.isWhitespace

/-- The per-line parse loop of `search_with_ytdlp`: lines whose trim is empty
are skipped, each remaining line is decoded (`decode` models
`serde_json::from_str` on one line; `none` is a malformed line, silently
skipped) and fed to `parse_ytdlp_item`; items that fail to parse are skipped. -/
def parse_output_lines (decode : String → Option Value) (output : List String) :
    List YoutubeVideo :=
  output.filterMap fun line =>
    if trimIsEmpty line then none
    else (decode line).bind parse_ytdlp_item

/-- `search_with_ytdlp`. `subproc` models running yt-dlp on the pseudo-URL and
returns the stdout lines, or the propagated subprocess error. The parsed
records are paginated by dropping `(page-1) * RESULTS_PER_PAGE` from the
front; nothing is truncated from the back. -/
def search_with_ytdlp (decode : String → Option Value)
    (subproc : String → Except String (List String))
    (query : String) (page : Nat) : Except SearchErr (List YoutubeVideo) :=
  let total_results := page * RESULTS_PER_PAGE
  match subproc (search_query_string total_results query) with
  | .error e => .error (.externalTool e)
  | .ok output =>
    let videos := parse_output_lines decode output
    let start_idx := (page - 1) * RESULTS_PER_PAGE
    .ok (videos.drop start_idx)

/-- `get_search_query`: bails with the missing-query error when the session
has no bound query, otherwise delegates to `search_with_ytdlp`. -/
def get_search_query (inst : Instance) (decode : String → Option Value)
    (subproc : String → Except String (List String)) (page : Nat) :
    Except SearchErr (List YoutubeVideo) :=
  match inst.query with
  | none => .error .missingQuery
  | some query => search_with_ytdlp decode subproc query page

/-- `INVIDIOUS_INSTANCE_LIST`: the static fallback mirror list. -/
def INVIDIOUS_INSTANCE_LIST : List String :=
  [ "https://inv.nadeko.net"
  , "https://invidious.nerdvpn.de"
  , "https://yewtu.be"
  , "https://y.com.sb"
  , "https://yt.artemislena.eu" ]

/-- `get_invidious_instance_list`. `response` models
`client.get(INVIDIOUS_DOMAINS).send().await?.text().await?` followed by
`serde_json::from_str`: `.error e` is a transport failure propagated by `?`,
`.ok none` a body that is not valid JSON, `.ok (some v)` a decoded body. -/
def get_invidious_instance_list (response : Except String (Option Value)) :
    Except String (List String) :=
  match response with
  | .error e => .error e
  | .ok decoded =>
    match parse_invidious_instance_list decoded with
    | some vec => .ok vec
    | none => .error "no instance list fetched"

/-- The trending URL built for one mirror domain. -/
def trending_url (domain region : String) : String :=
  domain ++ "/api/v1/trending?type=music&region=" ++ region

/-- The mirror loop of `get_trending_music`: try each domain in order,
return the first successful parse together with the list of domains that
were attempted (every domain up to and including the successful one). -/
def try_mirrors (probe : String → Option (List YoutubeVideo)) :
    List String → Option (List YoutubeVideo) × List String
  | [] => (none, [])
  | d :: ds =>
    match probe d with
    | some videos => (some videos, [d])
    | none =>
      let rest := try_mirrors probe ds
      (rest.1, d :: rest.2)

/-- One probe of `get_trending_music`: the chained conditions
`send` ok ∧ status OK ∧ `text` ok (all folded into `http`, which yields the
body on success) ∧ `parse_youtube_options` succeeds. -/
def trending_probe (http : String → Option String) (decode : String → Option Value)
    (region domain : String) : Option (List YoutubeVideo) :=
  (http (trending_url domain region)).bind fun text =>
    parse_youtube_options (decode text)

/-- The message of the final `bail!` of `get_trending_music`, i.e. the
no-mirror-available failure. -/
def NO_MIRROR_MSG : String :=
  "Unable to fetch trending music from any Invidious instance"

/-- The candidate selection of `get_trending_music`: the directory result on
success, the full static list on any failure. -/
def select_domains (dirFetch : Except String (List String)) : List String :=
  match dirFetch with
  | .ok domain_list => domain_list
  | .error _ => INVIDIOUS_INSTANCE_LIST

/-- The scan half of `get_trending_music`, after candidates are fixed. -/
def run_trending (region : String) (http : String → Option String)
    (decode : String → Option Value) (candidates : List String) :
    Except String (List YoutubeVideo) :=
  match (try_mirrors (trending_probe http decode region) candidates).1 with
  | some videos => .ok videos
  | none => .error NO_MIRROR_MSG

/-- `get_trending_music`. `dirFetch` is the result of
`get_invidious_instance_list`; `shuffle` models `SliceRandom::shuffle` (the
theorems hypothesize it permutes its input); `http` and `decode` model the
per-mirror HTTP fetch and JSON decoding as in `trending_probe`. -/
def get_trending_music (region : String) (dirFetch : Except String (List String))
    (shuffle : List String → List String) (http : String → Option String)
    (decode : String → Option Value) : Except String (List YoutubeVideo) :=
  run_trending region http decode (shuffle (select_domains dirFetch))

/-! ## Helper lemmas -/

theorem length_filterMap_eq_countP {α β : Type} (f : α → Option β) (l : List α) :
    (l.filterMap f).length = l.countP (fun a => (f a).isSome) := by
  induction l with
  | nil => rfl
  | cons a t ih =>
    simp only [List.filterMap_cons, List.countP_cons]
    cases h : f a <;> simp [ih, h]

theorem try_mirrors_trace_of_none {probe : String → Option (List YoutubeVideo)}
    {l : List String} (h : (try_mirrors probe l).1 = none) :
    (try_mirrors probe l).2 = l := by
  induction l with
  | nil => rfl
  | cons d ds ih =>
    simp only [try_mirrors] at h ⊢
    revert h
    cases probe d with
    | some v => intro h; simp at h
    | none => intro h; exact congrArg (List.cons d) (ih h)

theorem try_mirrors_fst_none_iff {probe : String → Option (List YoutubeVideo)}
    {l : List String} :
    (try_mirrors probe l).1 = none ↔ ∀ d ∈ l, probe d = none := by
  induction l with
  | nil => simp [try_mirrors]
  | cons d ds ih =>
    simp only [try_mirrors]
    cases hp : probe d with
    | some v => simp [hp]
    | none => simpa [hp] using ih

theorem try_mirrors_fst_some {probe : String → Option (List YoutubeVideo)}
    {l : List String} {v : List YoutubeVideo} (h : (try_mirrors probe l).1 = some v) :
    ∃ d ∈ l, probe d = some v := by
  induction l with
  | nil => simp [try_mirrors] at h
  | cons d ds ih =>
    simp only [try_mirrors] at h
    cases hp : probe d with
    | some w =>
      rw [hp] at h
      simp only [Option.some.injEq] at h
      exact ⟨d, by simp, by rw [hp, h]⟩
    | none =>
      rw [hp] at h
      obtain ⟨d2, hd2, hp2⟩ := ih h
      exact ⟨d2, by simp [hd2], hp2⟩

/-! ## Claim theorems -/

/-- Concrete subprocess line object with string `title` and `id` but no
`duration` key. -/
def noDurationItem : Value :=
  .obj [("title", .str "Song"), ("id", .str "dQw4w9WgXcQ")]

/-- C2 counterexample: a subprocess-shaped JSON object with string fields
`id` and `title` but no `duration` field is NOT returned with duration 0 —
`parse_ytdlp_item` drops it (`value.get("duration")?` early-returns `None`),
contradicting the claim that such records parse with duration exactly 0. -/
theorem parse_ytdlp_item_drops_missing_duration :
    (noDurationItem.get "title").bind Value.as_str = some "Song" ∧
    (noDurationItem.get "id").bind Value.as_str = some "dQw4w9WgXcQ" ∧
    noDurationItem.get "duration" = none ∧
    parse_ytdlp_item noDurationItem = none :=
  ⟨rfl, rfl, rfl, rfl⟩

/-- C2 (amended): for every subprocess-shaped JSON object lacking a
`duration` field, `parse_ytdlp_item` returns `none` (the record is dropped),
even when string `id` and `title` are present; the duration-0 default applies
only when the `duration` key is present with a non-unsigned-integer value. -/
theorem parse_ytdlp_item_none_of_no_duration (v : Value)
    (h : v.get "duration" = none) : parse_ytdlp_item v = none := by
  unfold parse_ytdlp_item
  cases (v.get "title").bind Value.as_str <;>
    cases (v.get "id").bind Value.as_str <;> simp [h]

theorem parse_ytdlp_item_none_of_no_duration_witness :
    parse_ytdlp_item noDurationItem = none :=
  parse_ytdlp_item_none_of_no_duration noDurationItem rfl

/-- C9: `parse_ytdlp_item` succeeds exactly when `title` and `id` are present
as strings and the `duration` key is present with any value; when the present
`duration` is not an unsigned integer (null, string, float, negative), the
record is kept with duration 0 rather than dropped. -/
theorem parse_ytdlp_item_keep_characterization (v : Value) :
    ((parse_ytdlp_item v).isSome ↔
      ((v.get "title").bind Value.as_str).isSome ∧
      ((v.get "id").bind Value.as_str).isSome ∧
      (v.get "duration").isSome) ∧
    (∀ t i d, (v.get "title").bind Value.as_str = some t →
      (v.get "id").bind Value.as_str = some i →
      v.get "duration" = some d → d.as_u64 = none →
      parse_ytdlp_item v = some ⟨t, 0, i⟩) := by
  constructor
  · unfold parse_ytdlp_item
    cases (v.get "title").bind Value.as_str <;>
      cases (v.get "id").bind Value.as_str <;>
      cases v.get "duration" <;> simp
  · intro t i d ht hi hd hdu
    unfold parse_ytdlp_item
    simp [ht, hi, hd, hdu]

/-- Concrete subprocess line object whose `duration` is JSON null. -/
def nullDurationItem : Value :=
  .obj [("title", .str "Song"), ("id", .str "abc123"), ("duration", .null)]

theorem parse_ytdlp_item_keep_characterization_witness :
    parse_ytdlp_item nullDurationItem = some ⟨"Song", 0, "abc123"⟩ :=
  (parse_ytdlp_item_keep_characterization nullDurationItem).2
    "Song" "abc123" .null rfl rfl rfl rfl

/-- The spec's "contains all three required fields" predicate for
mirror-shaped records: a string `title`, a string `videoId` and an
unsigned-integer `lengthSeconds`. -/
def has_mirror_fields (v : Value) : Bool :=
  ((v.get "title").bind Value.as_str).isSome &&
  ((v.get "videoId").bind Value.as_str).isSome &&
  ((v.get "lengthSeconds").bind Value.as_u64).isSome

theorem parse_youtube_item_isSome (v : Value) :
    (parse_youtube_item v).isSome = has_mirror_fields v := by
  unfold parse_youtube_item has_mirror_fields
  cases (v.get "title").bind Value.as_str <;>
    cases (v.get "videoId").bind Value.as_str <;>
    cases (v.get "lengthSeconds").bind Value.as_u64 <;> simp

/-- C4: when the decoded input is a JSON array, `parse_youtube_options`
returns a list whose length is the number of array elements containing all
three required fields; when the input is malformed (undecodable) or decodes
to a non-array, it returns `none`. -/
theorem parse_youtube_options_length_spec (decoded : Option Value) :
    (∀ array, decoded = some (.arr array) →
      ∃ vids, parse_youtube_options decoded = some vids ∧
        vids.length = array.countP has_mirror_fields) ∧
    ((∀ array, decoded ≠ some (.arr array)) → parse_youtube_options decoded = none) := by
  constructor
  · rintro array rfl
    refine ⟨_, rfl, ?_⟩
    show (array.filterMap _).length = _
    rw [length_filterMap_eq_countP]
    refine List.countP_congr fun v _ => ?_
    rw [← parse_youtube_item_isSome v]
    cases h : parse_youtube_item v <;> simp [h]
  · intro h
    match decoded with
    | none => rfl
    | some .null => rfl
    | some (.bool b) => rfl
    | some (.num n) => rfl
    | some (.str s) => rfl
    | some (.arr a) => exact absurd rfl (h a)
    | some (.obj o) => rfl

/-- Concrete mirror-shaped records: two complete, one missing
`lengthSeconds`. -/
def mirrorBatch : List Value :=
  [ .obj [("title", .str "A"), ("videoId", .str "a1"), ("lengthSeconds", .num (.uint 100))]
  , .obj [("title", .str "C"), ("videoId", .str "c1")]
  , .obj [("title", .str "B"), ("videoId", .str "b1"), ("lengthSeconds", .num (.uint 200))] ]

theorem parse_youtube_options_length_spec_witness :
    (∃ vids, parse_youtube_options (some (.arr mirrorBatch)) = some vids ∧
      vids.length = mirrorBatch.countP has_mirror_fields) ∧
    parse_youtube_options (some (.str "not an array")) = none :=
  ⟨(parse_youtube_options_length_spec (some (.arr mirrorBatch))).1 mirrorBatch rfl,
   (parse_youtube_options_length_spec (some (.str "not an array"))).2
     (fun _ h => Value.noConfusion (Option.some.inj h))⟩

theorem parse_instance_api_true {v : Value} {uri : String} {q : ℚ}
    (h : parse_instance v = some (uri, q)) :
    ((v.getIdx 1).bind Value.as_object).bind
      (fun o => (lookupField o "api").bind Value.as_bool) = some true := by
  unfold parse_instance at h
  split at h
  · simp at h
  · next obj hobj =>
    split at h
    · simp at h
    · next api hapi =>
      split at h
      · next htrue => rw [hobj]; simpa [htrue] using hapi
      · simp at h

/-- C3: every uri returned by `parse_invidious_instance_list` comes from an
array element whose `details.api` is boolean-true and whose parsed
`monitor["30dRatio"].ratio` exceeds 95.0; no returned entry has health
ratio at most 95.0. -/
theorem instance_list_health_invariant (decoded : Option Value) (l : List String)
    (h : parse_invidious_instance_list decoded = some l) :
    ∀ uri ∈ l, ∃ array v, decoded = some (.arr array) ∧ v ∈ array ∧
      ((v.getIdx 1).bind Value.as_object).bind
        (fun o => (lookupField o "api").bind Value.as_bool) = some true ∧
      ∃ q, parse_instance v = some (uri, q) ∧ 95 < q := by
  intro uri hmem
  match decoded with
  | none => simp [parse_invidious_instance_list] at h
  | some value =>
    have h2 : (if (filtered_instances value).isEmpty = true then none
        else some (filtered_instances value)) = some l := h
    by_cases hempty : (filtered_instances value).isEmpty = true
    · rw [if_pos hempty] at h2
      simp at h2
    · rw [if_neg hempty] at h2
      injection h2 with h2
      subst h2
      match value with
      | .null => simp [filtered_instances, Value.as_array] at hmem
      | .bool b => simp [filtered_instances, Value.as_array] at hmem
      | .num n => simp [filtered_instances, Value.as_array] at hmem
      | .str s => simp [filtered_instances, Value.as_array] at hmem
      | .obj o => simp [filtered_instances, Value.as_array] at hmem
      | .arr array =>
        refine ⟨array, ?_⟩
        simp only [filtered_instances, Value.as_array, List.mem_filterMap] at hmem
        obtain ⟨v, hv, hparse⟩ := hmem
        refine ⟨v, rfl, hv, ?_⟩
        revert hparse
        cases hp : parse_instance v with
        | none => intro hparse; exact absurd hparse (by simp)
        | some p =>
          obtain ⟨u, q⟩ := p
          by_cases hq : 95 < q
          · simp only [hq, if_true, Option.some.injEq]
            intro hparse
            subst hparse
            exact ⟨parse_instance_api_true hp, q, rfl, hq⟩
          · simp [hq]

/-- The spec's directory scenario entry:
`["a", {api: true, uri: "https://m1", monitor: {"30dRatio": {ratio: "99.2"}}}]`. -/
def healthyEntry : Value :=
  .arr [ .str "a"
       , .obj [ ("api", .bool true)
              , ("uri", .str "https://m1")
              , ("monitor", .obj [("30dRatio", .obj [("ratio", .str "99.2")])]) ] ]

theorem instance_list_health_invariant_witness :
    ∃ array v, (some (.arr [healthyEntry]) : Option Value) = some (.arr array) ∧
      v ∈ array ∧
      ((v.getIdx 1).bind Value.as_object).bind
        (fun o => (lookupField o "api").bind Value.as_bool) = some true ∧
      ∃ q, parse_instance v = some ("https://m1", q) ∧ 95 < q := by
  have hp : parse_invidious_instance_list (some (.arr [healthyEntry])) =
      some ["https://m1"] := by
    simp [parse_invidious_instance_list, filtered_instances, Value.as_array,
      List.filterMap, parse_instance, healthyEntry, Value.getIdx, Value.as_object,
      lookupField, Value.as_bool, Value.as_str, Value.get, parseDecimal, digitsVal]
    norm_num
  exact instance_list_health_invariant (some (.arr [healthyEntry])) ["https://m1"] hp
    "https://m1" (List.mem_singleton_self "https://m1")

/-- C7: `get_invidious_instance_list` fails exactly when the filtered
instance list is empty (including on any transport failure or undecodable
body); on success the returned list is precisely the non-empty filtered list
derived from the response body — the static fallback list is never
substituted by this function. -/
theorem get_invidious_instance_list_spec (response : Except String (Option Value)) :
    ((∃ e, get_invidious_instance_list response = .error e) ↔
      (∃ e, response = .error e) ∨ response = .ok none ∨
      ∃ v, response = .ok (some v) ∧ filtered_instances v = []) ∧
    (∀ l, get_invidious_instance_list response = .ok l →
      ∃ v, response = .ok (some v) ∧ l = filtered_instances v ∧ l ≠ []) := by
  match response with
  | .error e =>
    exact ⟨⟨fun _ => .inl ⟨e, rfl⟩, fun _ => ⟨e, rfl⟩⟩, fun l hl => by simp [get_invidious_instance_list] at hl⟩
  | .ok none =>
    exact ⟨⟨fun _ => .inr (.inl rfl), fun _ => ⟨"no instance list fetched", rfl⟩⟩,
           fun l hl => by simp [get_invidious_instance_list, parse_invidious_instance_list] at hl⟩
  | .ok (some v) =>
    have hunfold : get_invidious_instance_list (.ok (some v)) =
        (match (if (filtered_instances v).isEmpty = true then none
                else some (filtered_instances v) : Option (List String)) with
         | some vec => .ok vec
         | none => .error "no instance list fetched") := rfl
    by_cases hempty : (filtered_instances v).isEmpty = true
    · rw [if_pos hempty] at hunfold
      constructor
      · exact ⟨fun _ => .inr (.inr ⟨v, rfl, List.isEmpty_iff.mp hempty⟩),
               fun _ => ⟨"no instance list fetched", hunfold⟩⟩
      · intro l hl
        rw [hunfold] at hl
        exact absurd hl (by simp)
    · rw [if_neg hempty] at hunfold
      constructor
      · constructor
        · intro ⟨e, he⟩
          rw [hunfold] at he
          exact absurd he (by simp)
        · rintro (⟨e, he⟩ | he | ⟨w, hw, hfw⟩)
          · exact absurd he (by simp)
          · exact absurd he (by simp)
          · injection hw with hw
            injection hw with hw
            subst hw
            exact absurd (List.isEmpty_iff.mpr hfw) hempty
      · intro l hl
        rw [hunfold] at hl
        injection hl with hl
        exact ⟨v, rfl, hl.symm, fun hnil => hempty (List.isEmpty_iff.mpr (hl ▸ hnil))⟩

theorem get_invidious_instance_list_spec_witness :
    (∃ e, get_invidious_instance_list (.ok (some (.arr []))) = .error e) ∧
    ∃ v, (Except.ok (some (.arr [healthyEntry])) :
        Except String (Option Value)) = .ok (some v) ∧
      ["https://m1"] = filtered_instances v ∧ ["https://m1"] ≠ [] := by
  constructor
  · exact (get_invidious_instance_list_spec (.ok (some (.arr [])))).1.mpr
      (.inr (.inr ⟨.arr [], rfl, rfl⟩))
  · refine (get_invidious_instance_list_spec (.ok (some (.arr [healthyEntry])))).2
      ["https://m1"] ?_
    simp [get_invidious_instance_list, parse_invidious_instance_list,
      filtered_instances, Value.as_array, List.filterMap, parse_instance,
      healthyEntry, Value.getIdx, Value.as_object, lookupField, Value.as_bool,
      Value.as_str, Value.get, parseDecimal, digitsVal]
    norm_num

/-- Line decoder for the 25-line scenario: every line decodes to a valid
metadata object (string `title` and `id`, unsigned-integer `duration`). -/
def scenario_decode (s : String) : Option Value :=
  some (.obj [("title", .str "lofi hip hop"), ("id", .str s), ("duration", .num (.uint 120))])

/-- Subprocess for the 25-line scenario: emits 25 valid metadata lines. -/
def scenario_subproc (_ : String) : Except String (List String) :=
  .ok (List.replicate 25 "x")

/-- C1 counterexample: with query "lofi", page 1, and a subprocess emitting
25 valid metadata lines, `search_with_ytdlp` returns all 25 parsed records,
not the first 20 — the code performs `skip((page-1)*pageSize)` but never
truncates the result to `pageSize`. -/
theorem search_page1_not_capped :
    (search_with_ytdlp scenario_decode scenario_subproc "lofi" 1).map List.length =
      .ok 25 ∧
    (search_with_ytdlp scenario_decode scenario_subproc "lofi" 1).map List.length ≠
      .ok 20 := by
  constructor
  · rfl
  · intro h
    rw [show (search_with_ytdlp scenario_decode scenario_subproc "lofi" 1).map
        List.length = .ok 25 from rfl] at h
    simp at h

/-- C1 (amended): for page 1, `search_with_ytdlp` returns every record parsed
from the subprocess output (`skip 0` from the front, no truncation to
pageSize); in the 25-valid-line scenario this is all 25 records, not 20. -/
theorem search_page1_returns_all_parsed (decode : String → Option Value)
    (subproc : String → Except String (List String)) (query : String)
    (output : List String)
    (h : subproc (search_query_string RESULTS_PER_PAGE query) = .ok output) :
    search_with_ytdlp decode subproc query 1 = .ok (parse_output_lines decode output) := by
  unfold search_with_ytdlp
  rw [Nat.one_mul]
  simp only [h]
  simp

theorem search_page1_returns_all_parsed_witness :
    search_with_ytdlp scenario_decode scenario_subproc "lofi" 1 =
      .ok (parse_output_lines scenario_decode (List.replicate 25 "x")) :=
  search_page1_returns_all_parsed scenario_decode scenario_subproc "lofi"
    (List.replicate 25 "x") rfl

/-- C8: on a stable underlying result sequence `L` (the subprocess answers a
request for `n` results with the first `n` elements of `L`), pages `p` and
`p+1` are the contiguous, positionally disjoint slices of `L` starting at
`(p-1)*pageSize` and `p*pageSize`: each is a 20-element take of the
corresponding drop, their concatenation is the contiguous 40-element window
at `(p-1)*pageSize` (so they never overlap and stay in the subprocess's
order), and each page before the last non-empty one has exactly 20 records. -/
theorem search_pagination_slices (decode : String → Option Value)
    (subproc : String → Except String (List String)) (query : String)
    (L : List YoutubeVideo) (p : Nat) (hp : 1 ≤ p) (out1 out2 : List String)
    (hs1 : subproc (search_query_string (p * RESULTS_PER_PAGE) query) = .ok out1)
    (hs2 : subproc (search_query_string ((p + 1) * RESULTS_PER_PAGE) query) = .ok out2)
    (ho1 : parse_output_lines decode out1 = L.take (p * RESULTS_PER_PAGE))
    (ho2 : parse_output_lines decode out2 = L.take ((p + 1) * RESULTS_PER_PAGE)) :
    ∃ A B,
      search_with_ytdlp decode subproc query p = .ok A ∧
      search_with_ytdlp decode subproc query (p + 1) = .ok B ∧
      A = (L.drop ((p - 1) * RESULTS_PER_PAGE)).take RESULTS_PER_PAGE ∧
      B = (L.drop (p * RESULTS_PER_PAGE)).take RESULTS_PER_PAGE ∧
      A ++ B = (L.drop ((p - 1) * RESULTS_PER_PAGE)).take (2 * RESULTS_PER_PAGE) ∧
      (B ≠ [] → A.length = RESULTS_PER_PAGE) ∧
      A.length ≤ RESULTS_PER_PAGE ∧ B.length ≤ RESULTS_PER_PAGE := by
  have e1 : search_with_ytdlp decode subproc query p =
      .ok ((L.take (p * RESULTS_PER_PAGE)).drop ((p - 1) * RESULTS_PER_PAGE)) := by
    unfold search_with_ytdlp
    simp only [hs1, ho1]
  have e2 : search_with_ytdlp decode subproc query (p + 1) =
      .ok ((L.take ((p + 1) * RESULTS_PER_PAGE)).drop (p * RESULTS_PER_PAGE)) := by
    unfold search_with_ytdlp
    simp only [hs2, ho2, Nat.add_sub_cancel]
  have hstep : p * RESULTS_PER_PAGE - (p - 1) * RESULTS_PER_PAGE = RESULTS_PER_PAGE := by
    cases p with
    | zero => exact absurd hp (by simp)
    | succ n => simp [Nat.succ_mul]
  have hstep2 : (p + 1) * RESULTS_PER_PAGE - p * RESULTS_PER_PAGE = RESULTS_PER_PAGE := by
    simp [Nat.succ_mul]
  have hsum : (p - 1) * RESULTS_PER_PAGE + RESULTS_PER_PAGE = p * RESULTS_PER_PAGE := by
    cases p with
    | zero => exact absurd hp (by simp)
    | succ n => simp [Nat.succ_mul]
  have hA : (L.take (p * RESULTS_PER_PAGE)).drop ((p - 1) * RESULTS_PER_PAGE) =
      (L.drop ((p - 1) * RESULTS_PER_PAGE)).take RESULTS_PER_PAGE := by
    rw [List.drop_take, hstep]
  have hB : (L.take ((p + 1) * RESULTS_PER_PAGE)).drop (p * RESULTS_PER_PAGE) =
      (L.drop (p * RESULTS_PER_PAGE)).take RESULTS_PER_PAGE := by
    rw [List.drop_take, hstep2]
  refine ⟨_, _, e1, e2, hA, hB, ?_, ?_, ?_, ?_⟩
  · rw [hA, hB]
    have hdd : L.drop (p * RESULTS_PER_PAGE) =
        (L.drop ((p - 1) * RESULTS_PER_PAGE)).drop RESULTS_PER_PAGE := by
      rw [List.drop_drop, hsum]
    rw [hdd, ← List.take_add, Nat.two_mul]
  · intro hBne
    rw [hB] at hBne
    have hlen : ¬ L.length ≤ p * RESULTS_PER_PAGE := by
      intro hle
      exact hBne (by simp [List.drop_eq_nil_iff.mpr hle])
    rw [hA, List.length_take, List.length_drop]
    omega
  · rw [hA, List.length_take]
    exact Nat.min_le_left _ _
  · rw [hB, List.length_take]
    exact Nat.min_le_left _ _

/-- Line decoder for the pagination witness: each line is a valid item whose
id is the line text. -/
def pag_decode (s : String) : Option Value :=
  some (.obj [("title", .str "t"), ("id", .str s), ("duration", .num (.uint 0))])

/-- Stable underlying result sequence of 25 records for the pagination
witness. -/
def pagL : List YoutubeVideo := List.replicate 25 ⟨"t", 0, "x"⟩

/-- Subprocess for the pagination witness: answers a request for 20 results
with 20 lines and any other request with all 25 lines it has. -/
def pag_subproc (s : String) : Except String (List String) :=
  if s = search_query_string 20 "q" then .ok (List.replicate 20 "x")
  else .ok (List.replicate 25 "x")

theorem search_pagination_slices_witness :
    ∃ A B,
      search_with_ytdlp pag_decode pag_subproc "q" 1 = .ok A ∧
      search_with_ytdlp pag_decode pag_subproc "q" 2 = .ok B ∧
      A = (pagL.drop ((1 - 1) * RESULTS_PER_PAGE)).take RESULTS_PER_PAGE ∧
      B = (pagL.drop (1 * RESULTS_PER_PAGE)).take RESULTS_PER_PAGE ∧
      A ++ B = (pagL.drop ((1 - 1) * RESULTS_PER_PAGE)).take (2 * RESULTS_PER_PAGE) ∧
      (B ≠ [] → A.length = RESULTS_PER_PAGE) ∧
      A.length ≤ RESULTS_PER_PAGE ∧ B.length ≤ RESULTS_PER_PAGE :=
  search_pagination_slices pag_decode pag_subproc "q" pagL 1 (by decide)
    (List.replicate 20 "x") (List.replicate 25 "x") rfl rfl rfl rfl

/-- C5: when the directory fetch fails (for any reason), the candidate list
of `get_trending_music` is exactly the full static mirror list, and whenever
the call then fails, every entry of the static list was attempted (the
attempted trace is a permutation of the full static list). -/
theorem trending_fallback_static_list (region e : String)
    (shuffle : List String → List String) (http : String → Option String)
    (decode : String → Option Value)
    (hperm : (shuffle INVIDIOUS_INSTANCE_LIST).Perm INVIDIOUS_INSTANCE_LIST) :
    select_domains (.error e) = INVIDIOUS_INSTANCE_LIST ∧
    get_trending_music region (.error e) shuffle http decode =
      run_trending region http decode (shuffle INVIDIOUS_INSTANCE_LIST) ∧
    (get_trending_music region (.error e) shuffle http decode = .error NO_MIRROR_MSG →
      (try_mirrors (trending_probe http decode region)
        (shuffle INVIDIOUS_INSTANCE_LIST)).2.Perm INVIDIOUS_INSTANCE_LIST) := by
  refine ⟨rfl, rfl, ?_⟩
  intro hfail
  have hnone : (try_mirrors (trending_probe http decode region)
      (shuffle INVIDIOUS_INSTANCE_LIST)).1 = none := by
    revert hfail
    unfold get_trending_music run_trending select_domains
    cases (try_mirrors (trending_probe http decode region)
        (shuffle INVIDIOUS_INSTANCE_LIST)).1 with
    | some v => intro hfail; exact absurd hfail (by simp)
    | none => intro _; rfl
  rw [try_mirrors_trace_of_none hnone]
  exact hperm

/-- All-failing HTTP layer for the trending witnesses. -/
def http_down (_ : String) : Option String := none

/-- Decoder for the trending witnesses (never consulted when HTTP fails). -/
def decode_none (_ : String) : Option Value := none

theorem trending_fallback_static_list_witness :
    (try_mirrors (trending_probe http_down decode_none "US")
      (id INVIDIOUS_INSTANCE_LIST)).2.Perm INVIDIOUS_INSTANCE_LIST :=
  (trending_fallback_static_list "US" "directory timeout" id http_down decode_none
    (List.Perm.refl _)).2.2 rfl

/-- C6: `get_trending_music` fails with the no-mirror-available error when
the candidate list is empty; it returns success only when some attempted
candidate's probe succeeded (one mirror's answer, never zero attempts and
never merged results); and when every candidate's probe fails it fails with
the no-mirror-available error. -/
theorem trending_no_mirror_available (region : String)
    (dirFetch : Except String (List String)) (shuffle : List String → List String)
    (http : String → Option String) (decode : String → Option Value)
    (hperm : (shuffle (select_domains dirFetch)).Perm (select_domains dirFetch)) :
    (select_domains dirFetch = [] →
      get_trending_music region dirFetch shuffle http decode = .error NO_MIRROR_MSG) ∧
    (∀ v, get_trending_music region dirFetch shuffle http decode = .ok v →
      ∃ d ∈ shuffle (select_domains dirFetch),
        trending_probe http decode region d = some v) ∧
    ((∀ d ∈ shuffle (select_domains dirFetch),
        trending_probe http decode region d = none) →
      get_trending_music region dirFetch shuffle http decode = .error NO_MIRROR_MSG) := by
  refine ⟨?_, ?_, ?_⟩
  · intro hempty
    rw [hempty] at hperm
    have hsh : shuffle (select_domains dirFetch) = [] := by
      rw [hempty]
      exact List.Perm.eq_nil (hempty ▸ hperm)
    unfold get_trending_music run_trending
    rw [hsh]
    rfl
  · intro v hok
    have hsome : (try_mirrors (trending_probe http decode region)
        (shuffle (select_domains dirFetch))).1 = some v := by
      revert hok
      unfold get_trending_music run_trending
      cases (try_mirrors (trending_probe http decode region)
          (shuffle (select_domains dirFetch))).1 with
      | some w => intro hok; injection hok with hok; rw [hok]
      | none => intro hok; exact absurd hok (by simp)
    exact try_mirrors_fst_some hsome
  · intro hall
    have hnone : (try_mirrors (trending_probe http decode region)
        (shuffle (select_domains dirFetch))).1 = none :=
      try_mirrors_fst_none_iff.mpr hall
    unfold get_trending_music run_trending
    rw [hnone]

theorem trending_no_mirror_available_witness :
    get_trending_music "US" (.ok ["https://m1"]) id http_down decode_none =
      .error NO_MIRROR_MSG :=
  (trending_no_mirror_available "US" (.ok ["https://m1"]) id http_down decode_none
    (List.Perm.refl _)).2.2 (fun _ _ => rfl)

/-- C10: a default-constructed session binds `some ""` as its query and
`some ""` as its domain label, and `get_search_query` raises the
missing-query error exactly when the session query is `none` — so a default
session can never fail with the missing-query error. -/
theorem default_instance_query_spec :
    Instance.default.query = some "" ∧
    Instance.default.domain = some "" ∧
    (∀ decode subproc page,
      get_search_query Instance.default decode subproc page ≠
        .error .missingQuery) ∧
    (∀ inst decode subproc page,
      get_search_query inst decode subproc page = .error .missingQuery ↔
        inst.query = none) := by
  have hiff : ∀ (inst : Instance) decode subproc page,
      get_search_query inst decode subproc page = .error .missingQuery ↔
        inst.query = none := by
    intro inst decode subproc page
    unfold get_search_query
    cases hq : inst.query with
    | none => simp
    | some q =>
      simp only [hq]
      constructor
      · intro h
        simp only [search_with_ytdlp] at h
        revert h
        cases subproc (search_query_string (page * RESULTS_PER_PAGE) q) with
        | error e => intro h; injection h with h; exact absurd h (by simp)
        | ok output => intro h; exact absurd h (by simp)
      · intro h
        exact absurd h (by simp)
  refine ⟨rfl, rfl, ?_, hiff⟩
  intro decode subproc page h
  have := (hiff Instance.default decode subproc page).mp h
  simp [Instance.default] at this

/-- A subprocess that returns no lines, for the session witness. -/
def subproc_empty (_ : String) : Except String (List String) := .ok []

theorem default_instance_query_spec_witness :
    get_search_query { domain := some "", query := none } decode_none subproc_empty 1 =
      .error .missingQuery :=
  (default_instance_query_spec.2.2.2 { domain := some "", query := none }
    decode_none subproc_empty 1).mpr rfl

end Invidious
